import Mathlib

/-!
Shallow embedding of the list-state controller in
`src/packages/core/src/hooks/useTable/index.ts` (the `useTable` hook):
pagination state (offset and cursor modes), filter/sorter merging with
permanent sets, the URL sync-out projection, the shareable-link builder,
and the empty-location reset effect.

JavaScript values that the code stores opaquely (cursor tokens, query
parameter values) are modelled by the `JSValue` type; JS truthiness tests
(`if (x)`, `Boolean(x)`, `!!x`) are modelled by `truthy`.
-/

namespace UseTable

/-- A JavaScript value as stored in the untyped (`unknown`) slots of the
cursor state and query parameters.  Structured values are represented
opaquely by an identifier. -/
inductive JSValue where
  | undefined
  | null
  | bool (b : Bool)
  | num (n : Int)
  | str (s : String)
  | obj (id : Nat)
deriving DecidableEq, Repr

/-- JS truthiness: `undefined`, `null`, `false`, `0` and `""` are falsy;
every other value (including any structured value) is truthy. -/
def truthy : JSValue → Bool
  | .undefined => false
  | .null => false
  | .bool b => b
  | .num n => n != 0
  | .str s => s != ""
  | .obj _ => true

/-- `CursorDirection` from `@definitions/table`, used by the cursor state. -/
inductive CursorDirection where
  | after
  | before
deriving DecidableEq, Repr

/-- The `cursorState` React state of `useTable` (lines 318-330 of the
source): current token, direction, the `next`/`prev` tokens most recently
returned by the fetcher, and the client-side history stack. -/
structure CursorState where
  current : JSValue
  direction : CursorDirection
  next : JSValue
  prev : JSValue
  history : List JSValue
deriving DecidableEq, Repr

/-- The optional `cursor` field of a fetch response (`{next?, prev?}`);
an unsupplied token is `undefined`. -/
structure ResponseCursor where
  next : JSValue
  prev : JSValue
deriving DecidableEq, Repr

/-- A fetch response as far as the cursor-update effect is concerned:
it may or may not carry a `cursor` object. -/
structure FetchResponse where
  cursor : Option ResponseCursor
deriving DecidableEq, Repr

/-- The cursor-update effect (source lines 499-508): after a successful
fetch in cursor mode, overwrite `next` and `prev` from the response's
cursor fields (`response.cursor?.next`, `response.cursor?.prev`), leaving
the other fields alone. -/
def applyFetchResponse (s : CursorState) (r : FetchResponse) : CursorState :=
  { s with
    next := match r.cursor with | some c => c.next | none => .undefined
    prev := match r.cursor with | some c => c.prev | none => .undefined }

/-- `goToNextPage` in cursor mode (source lines 510-525): if `next` is
truthy, push the current token onto the history, move to `next` with
direction `after`, and clear `next`/`prev`; otherwise do nothing. -/
def goToNextPageCursor (s : CursorState) : CursorState :=
  if truthy s.next then
    { current := s.next
      direction := .after
      history := s.history ++ [s.current]
      next := .undefined
      prev := .undefined }
  else s

/-- `goToPreviousPage` in cursor mode (source lines 527-568): prefer the
API's `prev` token; else pop the client history; else clear the cursor to
return to the first page; else do nothing.  All presence tests in the
source are JS truthiness tests. -/
def goToPreviousPageCursor (s : CursorState) : CursorState :=
  if truthy s.prev then
    { current := s.prev
      direction := .before
      next := .undefined
      prev := .undefined
      history := s.history }
  else if s.history.length > 0 then
    { current := s.history.getLastD .undefined
      direction := .after
      next := .undefined
      prev := .undefined
      history := s.history.dropLast }
  else if truthy s.current then
    { current := .undefined
      direction := .after
      next := .undefined
      prev := .undefined
      history := [] }
  else s

/-- `hasNextPage` in cursor mode (source line 575): `!!cursorState.next`. -/
def hasNextPageCursor (s : CursorState) : Bool :=
  truthy s.next

/-- `hasPreviousPage` in cursor mode (source lines 579-582):
`Boolean(prev) || history.length > 0 || Boolean(current)`. -/
def hasPreviousPageCursor (s : CursorState) : Bool :=
  truthy s.prev || s.history.length > 0 || truthy s.current

/-- `pageCount` (source lines 570-572): `pageSize ? Math.ceil((total ?? 0)
/ pageSize) : 1`, with the natural-number rendering of `Math.ceil` on a
nonnegative quotient. -/
def pageCount (total : Option Nat) (pageSize : Nat) : Nat :=
  if pageSize ≠ 0 then (total.getD 0 + pageSize - 1) / pageSize else 1

/-- `hasNextPage` in offset mode (source line 576): `currentPage < pageCount`. -/
def hasNextPageOffset (currentPage pc : Nat) : Bool :=
  currentPage < pc

/-- Sort order of a `CrudSort` entry. -/
inductive SortOrder where
  | asc
  | desc
deriving DecidableEq, Repr

/-- A `CrudSort` entry: `{field, order}`; uniqueness key is `field`. -/
structure CrudSort where
  field : String
  order : SortOrder
deriving DecidableEq, Repr

/-- A `CrudFilter` entry: `{field, operator, value}` with an optional
custom grouping key; uniqueness key is `(field, operator)` unless the
custom key is present. -/
structure CrudFilter where
  field : String
  operator : String
  value : JSValue
  key : Option String
deriving DecidableEq, Repr

/-- Identity key of a filter entry: the custom key when present,
otherwise the `(field, operator)` pair. -/
def filterKey (f : CrudFilter) : Sum String (String × String) :=
  match f.key with
  | some k => .inl k
  | none => .inr (f.field, f.operator)

/-- Identity key of a sort entry: its field. -/
def sortKey (s : CrudSort) : String :=
  s.field

section Merger

variable {α : Type} {κ : Type} [DecidableEq κ]

/-- Whether some entry of `l` has the same identity key as `x`. -/
def keyMem (k : α → κ) (x : α) (l : List α) : Bool :=
  l.any (fun y => decide (k y = k x))

/-- Deduplicate a sequence by identity key, keeping for each key its last
occurrence, in order of last occurrence. -/
def dedupKeepLast (k : α → κ) : List α → List α
  | [] => []
  | x :: xs => if keyMem k x xs then dedupKeepLast k xs else x :: dedupKeepLast k xs

/-- Modelled from the spec: the `union(permanent, incoming, [previous])`
algorithm of `unionFilters` / `unionSorters` in `@definitions/table`
(the module is imported by `useTable` but absent from the sources):
permanent entries first in their given order, then the previous and
incoming entries whose key is not represented by a permanent entry,
duplicates by key resolved to the last occurrence so incoming overrides
previous. -/
def unionByKey (k : α → κ) (permanent incoming previous : List α) : List α :=
  permanent ++
    dedupKeepLast k ((previous ++ incoming).filter (fun x => !keyMem k x permanent))

end Merger

/-- Modelled from the spec: `unionFilters(permanent, incoming, previous?)`
from `@definitions/table` (absent from the sources), instantiating the
union algorithm at the filter identity key. -/
def unionFilters (permanent incoming previous : List CrudFilter) : List CrudFilter :=
  unionByKey filterKey permanent incoming previous

/-- Modelled from the spec: `unionSorters(permanent, incoming)` from
`@definitions/table` (absent from the sources); sorters have a single
union behavior with no previous-state argument. -/
def unionSorters (permanent incoming : List CrudSort) : List CrudSort :=
  unionByKey sortKey permanent incoming []

/-- Modelled from the spec: `setInitialFilters(permanent, initial)` from
`@definitions/table` (absent from the sources): the initial filter state
is the union of the permanent set with the initial entries. -/
def setInitialFilters (permanent initial : List CrudFilter) : List CrudFilter :=
  unionFilters permanent initial []

/-- Modelled from the spec: `setInitialSorters(permanent, initial)` from
`@definitions/table` (absent from the sources): the initial sorter state
is the union of the permanent set with the initial entries. -/
def setInitialSorters (permanent initial : List CrudSort) : List CrudSort :=
  unionSorters permanent initial

/-- The `behavior` argument of `setFilters`. -/
inductive SetFilterBehavior where
  | merge
  | replace
deriving DecidableEq, Repr

/-- A user-driven filter/sorter mutation of the controller:
`setFilters(list, behavior)`, `setFilters(updater)` or `setSorters(list)`. -/
inductive TableOp where
  | setFiltersOp (fs : List CrudFilter) (behavior : SetFilterBehavior)
  | setFiltersSetterOp (g : List CrudFilter → List CrudFilter)
  | setSortersOp (ss : List CrudSort)

/-- The filter and sorter React states of the controller. -/
structure TableState where
  filters : List CrudFilter
  sorters : List CrudSort

/-- Dispatch of one mutation (source lines 448-497):
`setFiltersAsMerge` unions the incoming filters against permanent and
previous state; `setFiltersAsReplace` unions only against permanent;
`setFiltersWithSetter` applies the updater to the previous state and
unions the result against permanent; `setSortWithUnion` unions the
incoming sorters against the permanent sorters. -/
def applyTableOp (permF : List CrudFilter) (permS : List CrudSort)
    (s : TableState) : TableOp → TableState
  | .setFiltersOp fs .merge => { s with filters := unionFilters permF fs s.filters }
  | .setFiltersOp fs .replace => { s with filters := unionFilters permF fs [] }
  | .setFiltersSetterOp g => { s with filters := unionFilters permF (g s.filters) [] }
  | .setSortersOp ss => { s with sorters := unionSorters permS ss }

/-- A sequence of mutations applied in order. -/
def applyTableOps (permF : List CrudFilter) (permS : List CrudSort)
    (s : TableState) (ops : List TableOp) : TableState :=
  ops.foldl (applyTableOp permF permS) s

/-- The controller's initial filter/sorter state (source lines 309-314). -/
def initialTableState (permF initF : List CrudFilter)
    (permS : List CrudSort) (initS : List CrudSort) : TableState :=
  { filters := setInitialFilters permF initF
    sorters := setInitialSorters permS initS }

/-- The pagination mode relevant to `useTable`'s mode flags:
`isPaginationEnabled = (mode !== "off")` and
`isCursorPaginationEnabled = (mode === "cursor")` (source lines 224-225).
`offset` stands for any enabled non-cursor mode. -/
inductive PaginationMode where
  | offset
  | cursor
  | off
deriving DecidableEq, Repr

/-- `isPaginationEnabled`: the mode is not `"off"`. -/
def isPaginationEnabled : PaginationMode → Bool
  | .off => false
  | _ => true

/-- `isCursorPaginationEnabled`: the mode is `"cursor"`. -/
def isCursorPaginationEnabled : PaginationMode → Bool
  | .cursor => true
  | _ => false

/-- lodash `differenceWith(l, ex, isEqual)`: the entries of `l` that are
deep-equal to no entry of `ex` (deep equality is modelled by decidable
equality of the embedded entry types). -/
def differenceWith {α : Type} [DecidableEq α] (l ex : List α) : List α :=
  l.filter (fun x => decide (x ∉ ex))

/-- The query object written by the URL sync-out effect.  For the
`after`/`before` keys, `none` means the key is omitted from the write and
`some .undefined` means it is written as an explicit clear. -/
structure SyncOutQuery where
  currentPageOut : Option Nat
  pageSizeOut : Option Nat
  afterOut : Option JSValue
  beforeOut : Option JSValue
  sortersOut : List CrudSort
  filtersOut : List CrudFilter
deriving DecidableEq, Repr

/-- The query built by the URL sync-out effect (source lines 375-414):
`currentPage`/`pageSize` only when pagination is enabled and not cursor
mode; in cursor mode the object `{after: undefined, before: undefined,
[direction]: current}` when a current cursor is set (`!== undefined`) and
`{after: undefined, before: undefined}` otherwise; sorters and filters as
`differenceWith(state, permanent, isEqual)`. -/
def syncOutQuery (mode : PaginationMode) (currentPage pageSize : Nat)
    (cs : CursorState) (sorters permS : List CrudSort)
    (filters permF : List CrudFilter) : SyncOutQuery :=
  let shouldSyncPagination := isPaginationEnabled mode && !isCursorPaginationEnabled mode
  let shouldSyncCursor := isPaginationEnabled mode && isCursorPaginationEnabled mode
  { currentPageOut := if shouldSyncPagination then some currentPage else none
    pageSizeOut := if shouldSyncPagination then some pageSize else none
    afterOut :=
      if shouldSyncCursor then
        some (if cs.current ≠ JSValue.undefined ∧ cs.direction = .after
              then cs.current else .undefined)
      else none
    beforeOut :=
      if shouldSyncCursor then
        some (if cs.current ≠ JSValue.undefined ∧ cs.direction = .before
              then cs.current else .undefined)
      else none
    sortersOut := differenceWith sorters permS
    filtersOut := differenceWith filters permF }

/-- A value of the query object passed to `go` by
`createLinkForSyncWithLocation`: either an opaque JS value carried over
from the parsed location, or the structured sorter/filter lists. -/
inductive QVal where
  | jsv (v : JSValue)
  | sorterList (s : List CrudSort)
  | filterList (f : List CrudFilter)
deriving DecidableEq, Repr

/-- A query-parameter object: a map from key to optional value. -/
def QueryObj : Type := String → Option QVal

/-- `getCurrentQueryParams` (source lines 332-338): destructures
`{sorters, filters, pageSize, current, ...rest}` from the parsed location
params and returns `rest` — i.e. drops exactly the keys `sorters`,
`filters`, `pageSize` and `current`. -/
def getCurrentQueryParams (params : QueryObj) : QueryObj :=
  fun key =>
    if key = "sorters" ∨ key = "filters" ∨ key = "pageSize" ∨ key = "current"
    then none
    else params key

/-- The query object built by `createLinkForSyncWithLocation` (source
lines 340-360): `{...(isPaginationEnabled ? {currentPage, pageSize} : {}),
sorters, filters, ...getCurrentQueryParams()}`; a later spread overrides
an earlier key. -/
def createLinkQuery (isPagEnabled : Bool) (currentPage pageSize : Option Nat)
    (sorters : List CrudSort) (filters : List CrudFilter)
    (params : QueryObj) : QueryObj :=
  fun key =>
    match getCurrentQueryParams params key with
    | some v => some v
    | none =>
      if key = "sorters" then some (.sorterList sorters)
      else if key = "filters" then some (.filterList filters)
      else if isPagEnabled ∧ key = "currentPage" then
        currentPage.map (fun n => .jsv (.num n))
      else if isPagEnabled ∧ key = "pageSize" then
        pageSize.map (fun n => .jsv (.num n))
      else none

/-- The whole controller state touched by the empty-location reset
effect, together with the cursor state it leaves alone. -/
structure ControllerState where
  currentPage : Nat
  pageSize : Nat
  sorters : List CrudSort
  filters : List CrudFilter
  cursor : CursorState
deriving DecidableEq, Repr

/-- The per-render location inputs read by the default computation
(source lines 230-266): the router's parsed params (including the raw
`search` string) and the values `parseTableParams` extracted from that
search string. -/
structure RenderLocation where
  routerCurrentPage : Option Nat
  routerPageSize : Option Nat
  routerSorters : Option (List CrudSort)
  routerFilters : Option (List CrudFilter)
  search : Option String
  parsedCurrentPage : Option Nat
  parsedPageSize : Option Nat
  parsedSorter : List CrudSort
  parsedFilters : List CrudFilter
deriving DecidableEq, Repr

/-- The caller-supplied preferences read by the default computation
(source lines 226-248). -/
structure TableProps where
  prefCurrentPage : Option Nat
  prefPageSize : Option Nat
  preferredInitialSorters : Option (List CrudSort)
  preferredInitialFilters : Option (List CrudFilter)
  permSorters : List CrudSort
  permFilters : List CrudFilter
deriving DecidableEq, Repr

/-- JS `a || b` on an optional number: a present non-zero value wins,
anything falsy falls through to `b`. -/
def orTruthyNat (a : Option Nat) (b : Nat) : Nat :=
  match a with
  | some n => if n ≠ 0 then n else b
  | none => b

/-- The `defaultCurrentPage`/`defaultPageSize`/`defaultSorter`/
`defaultFilter` locals of one render. -/
structure ComputedDefaults where
  defaultCurrentPage : Nat
  defaultPageSize : Nat
  defaultSorter : Option (List CrudSort)
  defaultFilter : Option (List CrudFilter)
deriving DecidableEq, Repr

/-- The default computation (source lines 250-289).  These are plain
per-render locals, recomputed on every render from the location parsed at
that render: with `syncWithLocation` each value falls back through
current router param, then value parsed from the current search string,
then caller preference, then the hard-coded default (`1`, `10`, initial
sorters/filters); without it only preference and hard-coded default
apply.  An array already parsed (even empty) is truthy under `||`. -/
def computeDefaults (syncWithLocation : Bool) (loc : RenderLocation)
    (props : TableProps) : ComputedDefaults :=
  if syncWithLocation then
    { defaultCurrentPage :=
        orTruthyNat loc.routerCurrentPage
          (orTruthyNat loc.parsedCurrentPage (orTruthyNat props.prefCurrentPage 1))
      defaultPageSize :=
        orTruthyNat loc.routerPageSize
          (orTruthyNat loc.parsedPageSize (orTruthyNat props.prefPageSize 10))
      defaultSorter :=
        match loc.routerSorters with
        | some l => some l
        | none =>
          if loc.parsedSorter.length ≠ 0 then some loc.parsedSorter
          else props.preferredInitialSorters
      defaultFilter :=
        match loc.routerFilters with
        | some l => some l
        | none =>
          if loc.parsedFilters.length ≠ 0 then some loc.parsedFilters
          else props.preferredInitialFilters }
  else
    { defaultCurrentPage := orTruthyNat props.prefCurrentPage 1
      defaultPageSize := orTruthyNat props.prefPageSize 10
      defaultSorter := props.preferredInitialSorters
      defaultFilter := props.preferredInitialFilters }

/-- The empty-location reset effect (source lines 362-373): when the
parsed location's `search` string is exactly `""`, reset page, size,
sorters and filters to the `default*` locals of the render the effect
closed over — i.e. the defaults recomputed from the current (now empty)
location, not the values those locals had at mount; the effect issues no
`setCursorState`, so the cursor state is untouched. -/
def resetOnEmptyLocation (syncWithLocation : Bool) (loc : RenderLocation)
    (props : TableProps) (s : ControllerState) : ControllerState :=
  if loc.search = some "" then
    let d := computeDefaults syncWithLocation loc props
    { s with
      currentPage := d.defaultCurrentPage
      pageSize := d.defaultPageSize
      sorters := setInitialSorters props.permSorters (d.defaultSorter.getD [])
      filters := setInitialFilters props.permFilters (d.defaultFilter.getD []) }
  else s

/-- Example filter entry: `{field: "status", operator: "eq", value: "open"}`. -/
def fStatus : CrudFilter :=
  { field := "status", operator := "eq", value := .str "open", key := none }

/-- Example filter entry: `{field: "author", operator: "eq", value: "alice"}`. -/
def fAuthor : CrudFilter :=
  { field := "author", operator := "eq", value := .str "alice", key := none }

/-- Example filter entry previously in state: `{field: "year", operator: "gt", value: 2020}`. -/
def fYear : CrudFilter :=
  { field := "year", operator := "gt", value := .num 2020, key := none }

/-- Example sort entry: `{field: "title", order: "asc"}`. -/
def sTitle : CrudSort :=
  { field := "title", order := .asc }

/-- Example cursor state in which the API supplied a `prev` token. -/
def csPrevToken : CursorState :=
  { current := .str "c", direction := .after, next := .str "n",
    prev := .str "p", history := [.str "h1"] }

/-- Example cursor state with only a client history stack. -/
def csHistoryOnly : CursorState :=
  { current := .str "c", direction := .after, next := .undefined,
    prev := .undefined, history := [.str "h1", .str "h2"] }

/-- Example cursor state with only a current token. -/
def csCurrentOnly : CursorState :=
  { current := .str "c", direction := .after, next := .undefined,
    prev := .undefined, history := [] }

/-- Example cursor state at the start (nothing set). -/
def csEmpty : CursorState :=
  { current := .undefined, direction := .after, next := .undefined,
    prev := .undefined, history := [] }

/-- Example cursor state whose `prev` token is present but JS-falsy (the
empty string), with a non-empty history. -/
def csFalsyPrev : CursorState :=
  { current := .str "c", direction := .after, next := .undefined,
    prev := .str "", history := [.str "h1"] }

/-- Example cursor state whose `next` token is present but JS-falsy (the
number `0`). -/
def csFalsyNext : CursorState :=
  { current := .undefined, direction := .after, next := .num 0,
    prev := .undefined, history := [] }

/-- Example cursor state ready for a next-page navigation. -/
def csNextToken : CursorState :=
  { current := .str "c", direction := .after, next := .str "n2",
    prev := .undefined, history := [.str "h1"] }

/-- Example controller state away from the defaults. -/
def ctrlExample : ControllerState :=
  { currentPage := 7, pageSize := 25, sorters := [], filters := [fYear],
    cursor := csPrevToken }

/-- Example caller props for the reset scenario: no preferences, one
permanent filter. -/
def c10Props : TableProps :=
  { prefCurrentPage := none, prefPageSize := none,
    preferredInitialSorters := none, preferredInitialFilters := none,
    permSorters := [], permFilters := [fStatus] }

/-- The location at mount for the reset scenario: the URL carries
`currentPage=7`, visible both through the router params and through
`parseTableParams` of the search string. -/
def c10MountLoc : RenderLocation :=
  { routerCurrentPage := some 7, routerPageSize := none,
    routerSorters := none, routerFilters := none,
    search := some "currentPage=7",
    parsedCurrentPage := some 7, parsedPageSize := none,
    parsedSorter := [], parsedFilters := [] }

/-- The location at the reset render: the search string has become
exactly empty, so nothing parses out of it. -/
def c10EmptyLoc : RenderLocation :=
  { routerCurrentPage := none, routerPageSize := none,
    routerSorters := none, routerFilters := none,
    search := some "",
    parsedCurrentPage := none, parsedPageSize := none,
    parsedSorter := [], parsedFilters := [] }

/-- Cursor state after the first fetch of the cursor scenario: starting
from the empty state, the response carries `cursor.next = "abc"` and no
`prev`. -/
def c2AfterFirstFetch : CursorState :=
  applyFetchResponse csEmpty ⟨some ⟨.str "abc", .undefined⟩⟩

/-- Cursor state after calling `goToNextPage` and fetching again, the
response carrying `cursor.next = "def"` and no `prev`. -/
def c2AfterSecondFetch : CursorState :=
  applyFetchResponse (goToNextPageCursor c2AfterFirstFetch) ⟨some ⟨.str "def", .undefined⟩⟩

/-- Example parsed-location params carrying a `currentPage` key, as the
sync-out effect itself writes in offset mode. -/
def locParamsWithCurrentPage : QueryObj :=
  fun key => if key = "currentPage" then some (.jsv (.num 99)) else none

section MergerLemmas

variable {α : Type} {κ : Type} [DecidableEq κ]

theorem keyMem_eq_true_iff (k : α → κ) {x : α} {l : List α} :
    keyMem k x l = true ↔ ∃ y ∈ l, k y = k x := by
  simp [keyMem]

theorem keyMem_self (k : α → κ) {x : α} {l : List α} (h : x ∈ l) :
    keyMem k x l = true :=
  (keyMem_eq_true_iff k).mpr ⟨x, h, rfl⟩

theorem keyMem_append (k : α → κ) {x : α} {l m : List α} :
    keyMem k x (l ++ m) = (keyMem k x l || keyMem k x m) := by
  simp [keyMem, List.any_append]

theorem mem_of_mem_dedupKeepLast (k : α → κ) {l : List α} {x : α}
    (h : x ∈ dedupKeepLast k l) : x ∈ l := by
  induction l with
  | nil => simp [dedupKeepLast] at h
  | cons y ys ih =>
    by_cases hk : keyMem k y ys = true
    · simp only [dedupKeepLast, hk, if_true] at h
      exact List.mem_cons_of_mem _ (ih h)
    · simp only [dedupKeepLast, hk, if_false, Bool.false_eq_true,
        List.mem_cons] at h
      rcases h with h | h
      · simp [h]
      · exact List.mem_cons_of_mem _ (ih h)

theorem dedupKeepLast_pairwise (k : α → κ) (l : List α) :
    (dedupKeepLast k l).Pairwise (fun a b => k a ≠ k b) := by
  induction l with
  | nil => simp [dedupKeepLast]
  | cons y ys ih =>
    by_cases hk : keyMem k y ys = true
    · simpa [dedupKeepLast, hk] using ih
    · simp only [dedupKeepLast, hk, if_false, Bool.false_eq_true]
      refine List.Pairwise.cons ?_ ih
      intro b hb heq
      exact hk (keyMem_self k (mem_of_mem_dedupKeepLast k hb) |>.symm ▸
        ((keyMem_eq_true_iff k).mpr ⟨b, mem_of_mem_dedupKeepLast k hb, heq.symm⟩))

theorem dedupKeepLast_eq_self (k : α → κ) {l : List α}
    (h : l.Pairwise (fun a b => k a ≠ k b)) : dedupKeepLast k l = l := by
  induction l with
  | nil => rfl
  | cons y ys ih =>
    rw [List.pairwise_cons] at h
    have hk : keyMem k y ys = false := by
      rw [Bool.eq_false_iff]
      intro hmem
      obtain ⟨z, hz, hzk⟩ := (keyMem_eq_true_iff k).mp hmem
      exact (h.1 z hz) hzk.symm
    simp [dedupKeepLast, hk, ih h.2]

theorem dedupKeepLast_idem (k : α → κ) (l : List α) :
    dedupKeepLast k (dedupKeepLast k l) = dedupKeepLast k l :=
  dedupKeepLast_eq_self k (dedupKeepLast_pairwise k l)

theorem keyMem_filter_eq (k : α → κ) (x : α) (l m : List α)
    (hx : keyMem k x m = false) :
    keyMem k x (l.filter (fun y => !keyMem k y m)) = keyMem k x l := by
  by_cases h : keyMem k x l = true
  · rw [h]
    obtain ⟨y, hy, hyk⟩ := (keyMem_eq_true_iff k).mp h
    have hym : keyMem k y m = false := by
      rw [Bool.eq_false_iff]
      intro hc
      obtain ⟨z, hz, hzk⟩ := (keyMem_eq_true_iff k).mp hc
      have : keyMem k x m = true :=
        (keyMem_eq_true_iff k).mpr ⟨z, hz, by rw [hzk, hyk]⟩
      rw [this] at hx
      exact Bool.noConfusion hx
    exact (keyMem_eq_true_iff k).mpr
      ⟨y, List.mem_filter.mpr ⟨hy, by simp [hym]⟩, hyk⟩
  · rw [Bool.not_eq_true] at h
    rw [h, Bool.eq_false_iff]
    intro hc
    obtain ⟨y, hy, hyk⟩ := (keyMem_eq_true_iff k).mp hc
    have : keyMem k x l = true :=
      (keyMem_eq_true_iff k).mpr ⟨y, (List.mem_filter.mp hy).1, hyk⟩
    rw [this] at h
    exact Bool.noConfusion h

theorem dedupKeepLast_append (k : α → κ) (l m : List α) :
    dedupKeepLast k (l ++ m) =
      dedupKeepLast k (l.filter (fun y => !keyMem k y m)) ++ dedupKeepLast k m := by
  induction l with
  | nil => simp [dedupKeepLast]
  | cons x l ih =>
    by_cases hxm : keyMem k x m = true
    · have hcond : keyMem k x (l ++ m) = true := by
        rw [keyMem_append]
        simp [hxm]
      have hfilter : (x :: l).filter (fun y => !keyMem k y m) =
          l.filter (fun y => !keyMem k y m) := by
        simp [List.filter_cons, hxm]
      rw [List.cons_append]
      simp only [dedupKeepLast, hcond, if_true]
      rw [hfilter]
      exact ih
    · rw [Bool.not_eq_true] at hxm
      have hcond : keyMem k x (l ++ m) = keyMem k x l := by
        rw [keyMem_append, hxm, Bool.or_false]
      have hfilter : (x :: l).filter (fun y => !keyMem k y m) =
          x :: l.filter (fun y => !keyMem k y m) := by
        simp [List.filter_cons, hxm]
      have hinner : keyMem k x (l.filter (fun y => !keyMem k y m)) = keyMem k x l :=
        keyMem_filter_eq k x l m hxm
      rw [List.cons_append]
      by_cases hxl : keyMem k x l = true
      · simp only [dedupKeepLast, hcond, hxl, if_true]
        rw [hfilter]
        simp only [dedupKeepLast, hinner, hxl, if_true]
        exact ih
      · rw [Bool.not_eq_true] at hxl
        simp only [dedupKeepLast, hcond, hxl, if_false, Bool.false_eq_true]
        rw [hfilter]
        simp only [dedupKeepLast, hinner, hxl, if_false, Bool.false_eq_true]
        rw [List.cons_append, ih]

theorem unionByKey_merge_idem (k : α → κ) (P F S : List α) :
    unionByKey k P F (unionByKey k P F S) = unionByKey k P F S := by
  unfold unionByKey
  congr 1
  have hPnil : P.filter (fun x => !keyMem k x P) = [] := by
    rw [List.filter_eq_nil_iff]
    intro a ha
    simp [keyMem_self k ha]
  have hSF : (S ++ F).filter (fun x => !keyMem k x P) =
      S.filter (fun x => !keyMem k x P) ++ F.filter (fun x => !keyMem k x P) :=
    List.filter_append _ _
  set np : α → Bool := fun x => !keyMem k x P with hnp
  set S' := S.filter np with hS'
  set F' := F.filter np with hF'
  set T := dedupKeepLast k ((S ++ F).filter np) with hT
  have hTfilter : T.filter np = T := by
    rw [List.filter_eq_self]
    intro a ha
    exact List.of_mem_filter (mem_of_mem_dedupKeepLast k (hT ▸ ha))
  have hstep1 : ((P ++ T) ++ F).filter np = T ++ F' := by
    rw [List.filter_append, List.filter_append, hPnil, hTfilter, ← hF']
    simp
  rw [hstep1]
  set q : α → Bool := fun y => !keyMem k y F' with hq
  have hTsplit : T = dedupKeepLast k (S'.filter q) ++ dedupKeepLast k F' := by
    rw [hT, hSF]
    exact dedupKeepLast_append k S' F'
  set A := dedupKeepLast k (S'.filter q) with hA
  have hAfilter : A.filter q = A := by
    rw [List.filter_eq_self]
    intro a ha
    exact List.of_mem_filter (mem_of_mem_dedupKeepLast k (hA ▸ ha))
  have hBfilter : (dedupKeepLast k F').filter q = [] := by
    rw [List.filter_eq_nil_iff]
    intro a ha
    simp [hq, keyMem_self k (mem_of_mem_dedupKeepLast k ha)]
  have hTq : T.filter q = A := by
    rw [hTsplit, List.filter_append, hAfilter, hBfilter, List.append_nil]
  rw [dedupKeepLast_append k T F', hTq, hA, dedupKeepLast_idem, ← hA, ← hTsplit]

end MergerLemmas

theorem add_pred_div_eq_ceil (t p : Nat) (hp : 0 < p) :
    (t + p - 1) / p = ⌈(t : ℚ) / (p : ℚ)⌉₊ := by
  have hpq : (0 : ℚ) < (p : ℚ) := by exact_mod_cast hp
  rcases Nat.eq_zero_or_pos t with ht | ht
  · subst ht
    simp [Nat.div_eq_of_lt (by omega : p - 1 < p)]
  · set q := (t + p - 1) / p with hq
    have h1 : q * p ≤ t + p - 1 := Nat.div_mul_le_self _ _
    have h2 : t + p - 1 < (q + 1) * p := by
      have := Nat.lt_succ_self q
      rw [hq] at this
      exact (Nat.div_lt_iff_lt_mul hp).mp (by omega)
    have h3 : (q + 1) * p = q * p + p := by ring
    have hq1 : 1 ≤ q := by
      by_contra hcon
      push_neg at hcon
      interval_cases q
      omega
    symm
    rw [Nat.ceil_eq_iff (by omega : q ≠ 0)]
    constructor
    · rw [lt_div_iff₀ hpq]
      have hlin : (q - 1) * p < t := by
        have hsub : (q - 1) * p = q * p - p := by
          cases q with
          | zero => omega
          | succ n => simp [Nat.succ_sub_one, Nat.succ_mul]
        omega
      calc ((q - 1 : ℕ) : ℚ) * p = (((q - 1) * p : ℕ) : ℚ) := by push_cast; ring
        _ < (t : ℚ) := by exact_mod_cast hlin
    · rw [div_le_iff₀ hpq]
      have hle : t ≤ q * p := by omega
      calc (t : ℚ) ≤ ((q * p : ℕ) : ℚ) := by exact_mod_cast hle
        _ = (q : ℚ) * p := by push_cast; ring

/-- C1 (counterexample): the claim reads the first tier's guard as "prev
is present", but the source tests JS truthiness (`if (cursorState.prev)`).
At a state whose `prev` token is present but falsy (the empty string) with
a non-empty history, `goToPreviousPage` takes the history tier: the
resulting `current` is not `prev` and the history is not left unchanged,
refuting the claim as stated. -/
theorem c1_present_falsy_prev_refutes :
    csFalsyPrev.prev ≠ JSValue.undefined ∧
    (goToPreviousPageCursor csFalsyPrev).current ≠ csFalsyPrev.prev ∧
    (goToPreviousPageCursor csFalsyPrev).history ≠ csFalsyPrev.history := by
  decide

/-- C1 (amended): in cursor mode `goToPreviousPage` follows the
three-tier priority with presence read as JS truthiness: if `prev` is
truthy it becomes `current` with direction `before`, `next`/`prev`
cleared and the history untouched; else if the history is non-empty its
last entry is popped into `current` with direction `after` and
`next`/`prev` cleared; else if `current` is truthy the cursor is reset to
absent with direction `after`, `next`/`prev` cleared and the history
emptied; else the state is unchanged. -/
theorem c1_goToPreviousPage_three_tiers (s : CursorState) :
    (truthy s.prev = true →
      goToPreviousPageCursor s =
        { current := s.prev, direction := .before, next := .undefined,
          prev := .undefined, history := s.history }) ∧
    (truthy s.prev = false → s.history ≠ [] →
      goToPreviousPageCursor s =
        { current := s.history.getLastD .undefined, direction := .after,
          next := .undefined, prev := .undefined, history := s.history.dropLast }) ∧
    (truthy s.prev = false → s.history = [] → truthy s.current = true →
      goToPreviousPageCursor s =
        { current := .undefined, direction := .after, next := .undefined,
          prev := .undefined, history := [] }) ∧
    (truthy s.prev = false → s.history = [] → truthy s.current = false →
      goToPreviousPageCursor s = s) := by
  refine ⟨?_, ?_, ?_, ?_⟩
  · intro h1
    simp [goToPreviousPageCursor, h1]
  · intro h1 h2
    simp [goToPreviousPageCursor, h1, List.length_pos.mpr h2]
  · intro h1 h2 h3
    simp [goToPreviousPageCursor, h1, h2, h3]
  · intro h1 h2 h3
    simp [goToPreviousPageCursor, h1, h2, h3]

/-- C1 (witness): the four tiers of the amended theorem evaluated at
concrete cursor states. -/
theorem c1_goToPreviousPage_three_tiers_witness :
    goToPreviousPageCursor csPrevToken =
      { current := .str "p", direction := .before, next := .undefined,
        prev := .undefined, history := [.str "h1"] } ∧
    goToPreviousPageCursor csHistoryOnly =
      { current := .str "h2", direction := .after, next := .undefined,
        prev := .undefined, history := [.str "h1"] } ∧
    goToPreviousPageCursor csCurrentOnly =
      { current := .undefined, direction := .after, next := .undefined,
        prev := .undefined, history := [] } ∧
    goToPreviousPageCursor csEmpty = csEmpty :=
  ⟨(c1_goToPreviousPage_three_tiers csPrevToken).1 (by decide),
   (c1_goToPreviousPage_three_tiers csHistoryOnly).2.1 (by decide) (by decide),
   (c1_goToPreviousPage_three_tiers csCurrentOnly).2.2.1 (by decide) (by decide) (by decide),
   (c1_goToPreviousPage_three_tiers csEmpty).2.2.2 (by decide) (by decide) (by decide)⟩

/-- C7 (counterexample): cursor availability is not a pure presence test.
With `next` present but equal to the number `0`, `hasNextPage` is false
and `goToNextPage` is a no-op, refuting the claim that availability
depends on presence alone for values such as `0`. -/
theorem c7_falsy_next_refutes :
    csFalsyNext.next ≠ JSValue.undefined ∧
    hasNextPageCursor csFalsyNext = false ∧
    goToNextPageCursor csFalsyNext = csFalsyNext := by
  decide

/-- C7 (amended): cursor tokens are stored opaquely, but availability is
decided by JS truthiness, not bare presence: `hasNextPage` is exactly
the truthiness of `next`; `goToNextPage` is a no-op when `next` is falsy
and navigates to `next` (pushing `current` onto the history) when it is
truthy; `hasPreviousPage` holds exactly when `prev` is truthy, or the
history is non-empty, or `current` is truthy. -/
theorem c7_availability_by_truthiness (s : CursorState) :
    hasNextPageCursor s = truthy s.next ∧
    (truthy s.next = false → goToNextPageCursor s = s) ∧
    (truthy s.next = true →
      goToNextPageCursor s =
        { current := s.next, direction := .after, next := .undefined,
          prev := .undefined, history := s.history ++ [s.current] }) ∧
    hasPreviousPageCursor s =
      (truthy s.prev || !s.history.isEmpty || truthy s.current) := by
  refine ⟨rfl, ?_, ?_, ?_⟩
  · intro h
    simp [goToNextPageCursor, h]
  · intro h
    simp [goToNextPageCursor, h]
  · obtain ⟨c, d, n, p, h⟩ := s
    cases h with
    | nil => simp [hasPreviousPageCursor]
    | cons a l => simp [hasPreviousPageCursor]

/-- C7 (witness): the amended availability rules evaluated at concrete
states with a truthy and with an absent `next` token. -/
theorem c7_availability_by_truthiness_witness :
    goToNextPageCursor csNextToken =
      { current := .str "n2", direction := .after, next := .undefined,
        prev := .undefined, history := [.str "h1", .str "c"] } ∧
    goToNextPageCursor csEmpty = csEmpty :=
  ⟨(c7_availability_by_truthiness csNextToken).2.2.1 (by decide),
   (c7_availability_by_truthiness csEmpty).2.1 (by decide)⟩

/-- C2: starting in cursor mode with no location, a fetch carrying
`cursor.next = "abc"` and no `prev` yields `hasNextPage = true` and
`hasPreviousPage = false`; after `goToNextPage` and a fetch returning
`cursor.next = "def"` and no `prev`, `hasPreviousPage` is true via the
client history (the `prev` token is not truthy and the history is
non-empty); and one subsequent `goToPreviousPage` returns `current` to
absent. -/
theorem c2_cursor_scenario :
    hasNextPageCursor c2AfterFirstFetch = true ∧
    hasPreviousPageCursor c2AfterFirstFetch = false ∧
    hasPreviousPageCursor c2AfterSecondFetch = true ∧
    truthy c2AfterSecondFetch.prev = false ∧
    c2AfterSecondFetch.history ≠ [] ∧
    (goToPreviousPageCursor c2AfterSecondFetch).current = JSValue.undefined := by
  decide

/-- C4: in offset mode, with a positive page size, `pageCount` is the
ceiling of `total / pageSize` (an absent total counting as `0`), and
`hasNextPage` is false exactly when `currentPage ≥ pageCount`; in
particular `total = 47, pageSize = 10` gives `pageCount = 5` and no next
page at `currentPage = 5`. -/
theorem c4_pageCount_ceil_hasNextPage (total currentPage pageSize : Nat)
    (hp : 0 < pageSize) :
    pageCount (some total) pageSize = ⌈(total : ℚ) / (pageSize : ℚ)⌉₊ ∧
    pageCount none pageSize = pageCount (some 0) pageSize ∧
    (hasNextPageOffset currentPage (pageCount (some total) pageSize) = false ↔
      pageCount (some total) pageSize ≤ currentPage) ∧
    pageCount (some 47) 10 = 5 ∧
    hasNextPageOffset 5 (pageCount (some 47) 10) = false := by
  refine ⟨?_, rfl, ?_, by decide, by decide⟩
  · unfold pageCount
    rw [if_pos (Nat.pos_iff_ne_zero.mp hp)]
    exact add_pred_div_eq_ceil total pageSize hp
  · simp [hasNextPageOffset, Nat.not_lt]

/-- C4 (witness): the theorem instantiated at `total = 47`,
`currentPage = 5`, `pageSize = 10`. -/
theorem c4_pageCount_ceil_hasNextPage_witness :
    pageCount (some 47) 10 = ⌈(47 : ℚ) / (10 : ℚ)⌉₊ ∧
    pageCount none 10 = pageCount (some 0) 10 ∧
    (hasNextPageOffset 5 (pageCount (some 47) 10) = false ↔
      pageCount (some 47) 10 ≤ 5) ∧
    pageCount (some 47) 10 = 5 ∧
    hasNextPageOffset 5 (pageCount (some 47) 10) = false :=
  c4_pageCount_ceil_hasNextPage 47 5 10 (by decide)

theorem mem_unionByKey_left {α κ : Type} [DecidableEq κ] (k : α → κ)
    {x : α} {P inc prev : List α} (h : x ∈ P) : x ∈ unionByKey k P inc prev :=
  List.mem_append.mpr (Or.inl h)

theorem applyTableOps_keep_permanent (permF : List CrudFilter)
    (permS : List CrudSort) (ops : List TableOp) (s : TableState)
    (hf : ∀ f ∈ permF, f ∈ s.filters) (hs : ∀ x ∈ permS, x ∈ s.sorters) :
    (∀ f ∈ permF, f ∈ (applyTableOps permF permS s ops).filters) ∧
    (∀ x ∈ permS, x ∈ (applyTableOps permF permS s ops).sorters) := by
  induction ops generalizing s with
  | nil => exact ⟨hf, hs⟩
  | cons op rest ih =>
    apply ih
    · intro f hfp
      cases op with
      | setFiltersOp fs behavior =>
        cases behavior with
        | merge => exact mem_unionByKey_left filterKey hfp
        | replace => exact mem_unionByKey_left filterKey hfp
      | setFiltersSetterOp g => exact mem_unionByKey_left filterKey hfp
      | setSortersOp ss => exact hf f hfp
    · intro x hxp
      cases op with
      | setFiltersOp fs behavior => cases behavior <;> exact hs x hxp
      | setFiltersSetterOp g => exact hs x hxp
      | setSortersOp ss => exact mem_unionByKey_left sortKey hxp

/-- C3: for every permanent filter set and permanent sorter set, after
any sequence of `setFilters` calls (list form with merge or replace
behavior, or functional-updater form) and `setSorters` calls starting
from the initial state, every permanent entry is still present unmodified
in the resulting filters (resp. sorters) state. -/
theorem c3_permanent_never_dropped (permF initF : List CrudFilter)
    (permS initS : List CrudSort) (ops : List TableOp) :
    (∀ f ∈ permF,
      f ∈ (applyTableOps permF permS
        (initialTableState permF initF permS initS) ops).filters) ∧
    (∀ x ∈ permS,
      x ∈ (applyTableOps permF permS
        (initialTableState permF initF permS initS) ops).sorters) :=
  applyTableOps_keep_permanent permF permS ops _
    (fun _ hf => mem_unionByKey_left filterKey hf)
    (fun _ hs => mem_unionByKey_left sortKey hs)

/-- C3 (witness): the permanent filter `status eq open` and the permanent
sorter `title asc` survive a replacing `setFilters` call followed by a
`setSorters` call. -/
theorem c3_permanent_never_dropped_witness :
    fStatus ∈ (applyTableOps [fStatus] [sTitle]
      (initialTableState [fStatus] [fYear] [sTitle] [])
      [.setFiltersOp [fAuthor] .replace, .setSortersOp []]).filters ∧
    sTitle ∈ (applyTableOps [fStatus] [sTitle]
      (initialTableState [fStatus] [fYear] [sTitle] [])
      [.setFiltersOp [fAuthor] .replace, .setSortersOp []]).sorters :=
  ⟨(c3_permanent_never_dropped [fStatus] [fYear] [sTitle] []
      [.setFiltersOp [fAuthor] .replace, .setSortersOp []]).1 fStatus (by decide),
   (c3_permanent_never_dropped [fStatus] [fYear] [sTitle] []
      [.setFiltersOp [fAuthor] .replace, .setSortersOp []]).2 sTitle (by decide)⟩

/-- C8: `setFilters(F, "replace")` makes the filter state exactly
`union(P, F)`, and every entry of that union comes from the permanent set
or from `F` — no entry of the previous state survives on its own. -/
theorem c8_replace_is_union (permF F S : List CrudFilter)
    (permS srt : List CrudSort) :
    (applyTableOp permF permS { filters := S, sorters := srt }
        (.setFiltersOp F .replace)).filters = unionFilters permF F [] ∧
    ∀ x ∈ unionFilters permF F [], x ∈ permF ∨ x ∈ F := by
  refine ⟨rfl, ?_⟩
  intro x hx
  rcases List.mem_append.mp hx with h | h
  · exact Or.inl h
  · right
    have h1 := mem_of_mem_dedupKeepLast filterKey h
    have h2 := (List.mem_filter.mp h1).1
    simpa using h2

/-- C8 (witness): replacing the previous state `[fYear]` with `[fAuthor]`
under permanent `[fStatus]` yields exactly the union, whose entries all
come from the permanent set or the incoming list. -/
theorem c8_replace_is_union_witness :
    (applyTableOp [fStatus] [] { filters := [fYear], sorters := [] }
        (.setFiltersOp [fAuthor] .replace)).filters = unionFilters [fStatus] [fAuthor] [] ∧
    (fAuthor ∈ [fStatus] ∨ fAuthor ∈ [fAuthor]) :=
  ⟨(c8_replace_is_union [fStatus] [fAuthor] [fYear] [] []).1,
   (c8_replace_is_union [fStatus] [fAuthor] [fYear] [] []).2 fAuthor (by decide)⟩

/-- C9: `setFilters(F, "merge")` is idempotent: from any filter state,
applying the same merge twice leaves the state produced by the first
application unchanged. -/
theorem c9_merge_idempotent (permF F S : List CrudFilter)
    (permS srt : List CrudSort) :
    applyTableOp permF permS
        (applyTableOp permF permS { filters := S, sorters := srt }
          (.setFiltersOp F .merge))
        (.setFiltersOp F .merge) =
      applyTableOp permF permS { filters := S, sorters := srt }
        (.setFiltersOp F .merge) := by
  show TableState.mk (unionFilters permF F (unionFilters permF F S)) srt =
    TableState.mk (unionFilters permF F S) srt
  rw [show unionFilters permF F (unionFilters permF F S) = unionFilters permF F S from
    unionByKey_merge_idem filterKey permF F S]

/-- C6: the sync-out query, in cursor mode, writes the key matching the
current direction to the current token and explicitly clears the other
(both cleared when no cursor is current); it carries `currentPage` and
`pageSize` exactly when pagination is enabled and not in cursor mode; and
its sorters/filters are the difference between state and the permanent
sets, so no permanent entry is ever written. -/
theorem c6_syncOut_projection (mode : PaginationMode) (currentPage pageSize : Nat)
    (cs : CursorState) (sorters permS : List CrudSort)
    (filters permF : List CrudFilter) :
    (mode = .cursor → cs.current ≠ JSValue.undefined →
      ((cs.direction = .after →
          (syncOutQuery mode currentPage pageSize cs sorters permS filters permF).afterOut
              = some cs.current ∧
          (syncOutQuery mode currentPage pageSize cs sorters permS filters permF).beforeOut
              = some .undefined) ∧
       (cs.direction = .before →
          (syncOutQuery mode currentPage pageSize cs sorters permS filters permF).beforeOut
              = some cs.current ∧
          (syncOutQuery mode currentPage pageSize cs sorters permS filters permF).afterOut
              = some .undefined))) ∧
    (mode = .cursor → cs.current = JSValue.undefined →
      (syncOutQuery mode currentPage pageSize cs sorters permS filters permF).afterOut
          = some .undefined ∧
      (syncOutQuery mode currentPage pageSize cs sorters permS filters permF).beforeOut
          = some .undefined) ∧
    ((syncOutQuery mode currentPage pageSize cs sorters permS filters permF).currentPageOut
        = none ↔
      ¬(isPaginationEnabled mode = true ∧ isCursorPaginationEnabled mode = false)) ∧
    ((syncOutQuery mode currentPage pageSize cs sorters permS filters permF).pageSizeOut
        = none ↔
      ¬(isPaginationEnabled mode = true ∧ isCursorPaginationEnabled mode = false)) ∧
    (∀ p ∈ permS,
      p ∉ (syncOutQuery mode currentPage pageSize cs sorters permS filters permF).sortersOut) ∧
    (∀ p ∈ permF,
      p ∉ (syncOutQuery mode currentPage pageSize cs sorters permS filters permF).filtersOut) ∧
    (∀ x, x ∈ (syncOutQuery mode currentPage pageSize cs sorters permS filters permF).sortersOut
        ↔ x ∈ sorters ∧ x ∉ permS) ∧
    (∀ x, x ∈ (syncOutQuery mode currentPage pageSize cs sorters permS filters permF).filtersOut
        ↔ x ∈ filters ∧ x ∉ permF) := by
  refine ⟨?_, ?_, ?_, ?_, ?_, ?_, ?_, ?_⟩
  · intro hm hcur
    subst hm
    constructor
    · intro hdir
      constructor <;> simp [syncOutQuery, isPaginationEnabled,
        isCursorPaginationEnabled, hcur, hdir]
    · intro hdir
      constructor <;> simp [syncOutQuery, isPaginationEnabled,
        isCursorPaginationEnabled, hcur, hdir]
  · intro hm hcur
    subst hm
    constructor <;> simp [syncOutQuery, isPaginationEnabled,
      isCursorPaginationEnabled, hcur]
  · cases mode <;> simp [syncOutQuery, isPaginationEnabled, isCursorPaginationEnabled]
  · cases mode <;> simp [syncOutQuery, isPaginationEnabled, isCursorPaginationEnabled]
  · intro p hp
    simp [syncOutQuery, differenceWith, List.mem_filter, hp]
  · intro p hp
    simp [syncOutQuery, differenceWith, List.mem_filter, hp]
  · intro x
    simp [syncOutQuery, differenceWith, List.mem_filter]
  · intro x
    simp [syncOutQuery, differenceWith, List.mem_filter]

/-- C6 (witness): the sync-out query evaluated in cursor mode with a
current token travelling in direction `after`, and its sorter/filter
difference parts evaluated against a permanent entry. -/
theorem c6_syncOut_projection_witness :
    (syncOutQuery .cursor 1 10 csCurrentOnly [sTitle] [sTitle] [fStatus, fAuthor] [fStatus]).afterOut
        = some csCurrentOnly.current ∧
    (syncOutQuery .cursor 1 10 csCurrentOnly [sTitle] [sTitle] [fStatus, fAuthor] [fStatus]).beforeOut
        = some .undefined ∧
    sTitle ∉ (syncOutQuery .cursor 1 10 csCurrentOnly [sTitle] [sTitle] [fStatus, fAuthor] [fStatus]).sortersOut ∧
    fStatus ∉ (syncOutQuery .cursor 1 10 csCurrentOnly [sTitle] [sTitle] [fStatus, fAuthor] [fStatus]).filtersOut :=
  ⟨(((c6_syncOut_projection .cursor 1 10 csCurrentOnly [sTitle] [sTitle]
      [fStatus, fAuthor] [fStatus]).1 rfl (by decide)).1 rfl).1,
   (((c6_syncOut_projection .cursor 1 10 csCurrentOnly [sTitle] [sTitle]
      [fStatus, fAuthor] [fStatus]).1 rfl (by decide)).1 rfl).2,
   (c6_syncOut_projection .cursor 1 10 csCurrentOnly [sTitle] [sTitle]
      [fStatus, fAuthor] [fStatus]).2.2.2.2.1 sTitle (by decide),
   (c6_syncOut_projection .cursor 1 10 csCurrentOnly [sTitle] [sTitle]
      [fStatus, fAuthor] [fStatus]).2.2.2.2.2.1 fStatus (by decide)⟩

/-- C5: evaluation of the link-builder query at a failing input.  The
passthrough `getCurrentQueryParams` drops the key `current` instead of
`currentPage` and is spread last, so a `currentPage` key already in the
location (which the sync-out effect itself writes in offset mode)
overrides the supplied value: with location params `{currentPage: 99}`
and supplied `currentPage = 1`, the emitted query carries `99`, not `1`. -/
theorem c5_link_query_overridden :
    createLinkQuery true (some 1) (some 10) [] [] locParamsWithCurrentPage "currentPage"
        = some (.jsv (.num 99)) ∧
    createLinkQuery true (some 1) (some 10) [] [] locParamsWithCurrentPage "currentPage"
        ≠ some (.jsv (.num 1)) := by
  decide

/-- C10 (counterexample): the reset does not restore the defaults
computed at mount.  The `default*` values are per-render locals
recomputed from the current location: mounting at `?currentPage=7` makes
the mount-computed default current page `7`, yet when the search string
becomes empty the effect's render recomputes the default from the empty
location and writes `1`, not `7`. -/
theorem c10_mount_defaults_refuted :
    (computeDefaults true c10MountLoc c10Props).defaultCurrentPage = 7 ∧
    c10EmptyLoc.search = some "" ∧
    (resetOnEmptyLocation true c10EmptyLoc c10Props ctrlExample).currentPage = 1 ∧
    (resetOnEmptyLocation true c10EmptyLoc c10Props ctrlExample).currentPage ≠
      (computeDefaults true c10MountLoc c10Props).defaultCurrentPage := by
  decide

/-- C10 (amended): when the serialized location's search string becomes
exactly empty, `currentPage`, `pageSize`, `sorters` and `filters` are
reset to the defaults recomputed at that render from the now-empty
location — the caller-preferred values falling back to the hard-coded
defaults (`currentPage = 1`, `pageSize = 10`, initial sorters/filters
unioned with the permanent sets) — not the defaults computed at mount;
the cursor state (current, direction, next, prev and the history stack)
is left unchanged by the reset. -/
theorem c10_empty_location_resets (loc : RenderLocation) (props : TableProps)
    (s : ControllerState) (hsearch : loc.search = some "")
    (hrc : loc.routerCurrentPage = none) (hrp : loc.routerPageSize = none)
    (hrs : loc.routerSorters = none) (hrf : loc.routerFilters = none)
    (hpc : loc.parsedCurrentPage = none) (hpp : loc.parsedPageSize = none)
    (hps : loc.parsedSorter = []) (hpf : loc.parsedFilters = []) :
    (resetOnEmptyLocation true loc props s).currentPage
        = orTruthyNat props.prefCurrentPage 1 ∧
    (resetOnEmptyLocation true loc props s).pageSize
        = orTruthyNat props.prefPageSize 10 ∧
    (resetOnEmptyLocation true loc props s).sorters
        = setInitialSorters props.permSorters
            (props.preferredInitialSorters.getD []) ∧
    (resetOnEmptyLocation true loc props s).filters
        = setInitialFilters props.permFilters
            (props.preferredInitialFilters.getD []) ∧
    (resetOnEmptyLocation true loc props s).cursor = s.cursor := by
  simp [resetOnEmptyLocation, computeDefaults, orTruthyNat,
    hsearch, hrc, hrp, hrs, hrf, hpc, hpp, hps, hpf]

/-- C10 (witness): the amended reset evaluated at the empty-location
render of the scenario, from a state away from the defaults. -/
theorem c10_empty_location_resets_witness :
    (resetOnEmptyLocation true c10EmptyLoc c10Props ctrlExample).currentPage
        = orTruthyNat c10Props.prefCurrentPage 1 ∧
    (resetOnEmptyLocation true c10EmptyLoc c10Props ctrlExample).pageSize
        = orTruthyNat c10Props.prefPageSize 10 ∧
    (resetOnEmptyLocation true c10EmptyLoc c10Props ctrlExample).sorters
        = setInitialSorters c10Props.permSorters
            (c10Props.preferredInitialSorters.getD []) ∧
    (resetOnEmptyLocation true c10EmptyLoc c10Props ctrlExample).filters
        = setInitialFilters c10Props.permFilters
            (c10Props.preferredInitialFilters.getD []) ∧
    (resetOnEmptyLocation true c10EmptyLoc c10Props ctrlExample).cursor
        = ctrlExample.cursor :=
  c10_empty_location_resets c10EmptyLoc c10Props ctrlExample
    rfl rfl rfl rfl rfl rfl rfl rfl rfl

end UseTable
